import Mathlib

/-!
Shallow embedding of `src/system/databaseManager/MongoDB.js` (class
`MongoManager`): the connection-URI builder in the constructor and the
stateful handle operations (database/collection selection, close).

JavaScript conventions captured here:
  * a missing option (`undefined`) is modelled as `Option.none`;
  * string coercion of `undefined` yields the literal text `"undefined"`;
  * truthiness of a string option: `none` and `some ""` are falsy;
  * `encodeURIComponent` percent-encodes every character outside the
    JS unreserved set, byte-wise over the character's UTF-8 encoding,
    with uppercase hex digits.
-/

/-- Hex digit character (uppercase) for a value below 16, as produced by
the percent-encoder. -/
def hexDigit (n : Nat) : Char :=
  if n < 10 then Char.ofNat (48 + n) else Char.ofNat (55 + n)

/-- Characters that JavaScript `encodeURIComponent` leaves unescaped:
`A-Z a-z 0-9 - _ . ! ~ *` the apostrophe `( )`. -/
def isUnreservedChar (c : Char) : Bool :=
  (65 ≤ c.toNat && c.toNat ≤ 90) || (97 ≤ c.toNat && c.toNat ≤ 122) ||
  (48 ≤ c.toNat && c.toNat ≤ 57) ||
  c = '-' || c = '_' || c = '.' || c = '!' || c = '~' || c = '*' ||
  c.toNat = 39 || c = '(' || c = ')'

/-- UTF-8 byte sequence of a Unicode scalar value. -/
def utf8Bytes (n : Nat) : List Nat :=
  if n < 0x80 then [n]
  else if n < 0x800 then [0xC0 + n / 64, 0x80 + n % 64]
  else if n < 0x10000 then
    [0xE0 + n / 4096, 0x80 + (n / 64) % 64, 0x80 + n % 64]
  else
    [0xF0 + n / 262144, 0x80 + (n / 4096) % 64, 0x80 + (n / 64) % 64,
     0x80 + n % 64]

/-- Percent-escape of one byte: `%XY` with uppercase hex digits. -/
def pctByte (b : Nat) : List Char :=
  ['%', hexDigit (b / 16), hexDigit (b % 16)]

/-- Encoding of one character, as `encodeURIComponent` does it: unreserved
characters stand for themselves, anything else becomes the percent-escapes
of its UTF-8 bytes. -/
def encodeChar (c : Char) : List Char :=
  if isUnreservedChar c then [c]
  else ((utf8Bytes c.toNat).map pctByte).flatten

/-- JavaScript `encodeURIComponent`. -/
def encodeURIComponent (s : String) : String :=
  String.mk ((s.data.map encodeChar).flatten)

/-- Value of a hex digit character, accepting both cases (as the standard
percent-decoder does). -/
def hexVal (c : Char) : Option Nat :=
  if 48 ≤ c.toNat ∧ c.toNat ≤ 57 then some (c.toNat - 48)
  else if 65 ≤ c.toNat ∧ c.toNat ≤ 70 then some (c.toNat - 55)
  else if 97 ≤ c.toNat ∧ c.toNat ≤ 102 then some (c.toNat - 87)
  else none

mutual

/-- First pass of percent-decoding: turn the character stream into a byte
stream, reading `%XY` escapes as single bytes and other characters as
their own UTF-8 bytes.  Fails on a truncated or malformed escape. -/
def pctToBytes : List Char → Option (List Nat)
  | [] => some []
  | c :: rest =>
    if c = '%' then pctEscape rest
    else (pctToBytes rest).map (fun bs => utf8Bytes c.toNat ++ bs)

/-- Continuation of `pctToBytes` after a `%`: two hex digits follow. -/
def pctEscape : List Char → Option (List Nat)
  | h :: l :: rest2 =>
    (hexVal h).bind (fun hv =>
      (hexVal l).bind (fun lv =>
        (pctToBytes rest2).map (fun bs => (16 * hv + lv) :: bs)))
  | _ => none

end

mutual

/-- Second pass of percent-decoding: UTF-8 decoding of the byte stream.
Fails on a stray or missing continuation byte. -/
def utf8Decode : List Nat → Option (List Char)
  | [] => some []
  | b :: rest =>
    if b < 0x80 then (utf8Decode rest).map (fun cs => Char.ofNat b :: cs)
    else if b < 0xC0 then none
    else if b < 0xE0 then utf8DecodeTwo b rest
    else if b < 0xF0 then utf8DecodeThree b rest
    else if b < 0xF8 then utf8DecodeFour b rest
    else none

/-- Continuation of `utf8Decode` after a two-byte lead byte. -/
def utf8DecodeTwo (b : Nat) : List Nat → Option (List Char)
  | [] => none
  | b1 :: rest1 =>
    if 0x80 ≤ b1 ∧ b1 < 0xC0 then
      (utf8Decode rest1).map
        (fun cs => Char.ofNat ((b - 0xC0) * 64 + (b1 - 0x80)) :: cs)
    else none

/-- Continuation of `utf8Decode` after a three-byte lead byte. -/
def utf8DecodeThree (b : Nat) : List Nat → Option (List Char)
  | b1 :: b2 :: rest2 =>
    if (0x80 ≤ b1 ∧ b1 < 0xC0) ∧ (0x80 ≤ b2 ∧ b2 < 0xC0) then
      (utf8Decode rest2).map
        (fun cs =>
          Char.ofNat ((b - 0xE0) * 4096 + (b1 - 0x80) * 64 + (b2 - 0x80))
            :: cs)
    else none
  | _ => none

/-- Continuation of `utf8Decode` after a four-byte lead byte. -/
def utf8DecodeFour (b : Nat) : List Nat → Option (List Char)
  | b1 :: b2 :: b3 :: rest3 =>
    if (0x80 ≤ b1 ∧ b1 < 0xC0) ∧ (0x80 ≤ b2 ∧ b2 < 0xC0) ∧
       (0x80 ≤ b3 ∧ b3 < 0xC0) then
      (utf8Decode rest3).map
        (fun cs =>
          Char.ofNat ((b - 0xF0) * 262144 + (b1 - 0x80) * 4096 +
            (b2 - 0x80) * 64 + (b3 - 0x80)) :: cs)
    else none
  | _ => none

end

/-- Percent-decoding of a string (the inverse direction of
`encodeURIComponent`). -/
def percentDecode (s : String) : Option String :=
  (pctToBytes s.data).bind (fun bs => (utf8Decode bs).map String.mk)

/-- Modelled from the spec: the repository's `MongoDB.js` requires a
`./constants/constants` module (`MONGOWRAPPER_CONSTANTS`) that is not in
the sources; its string table is reconstructed from the spec (scheme
prefixes for SRV discovery and direct host lists, separator characters,
and the `authSource` / `authMechanism` query-parameter names). -/
def MONGOSERVER : String := "mongodb://"

/-- Modelled from the spec: SRV-discovery scheme of the missing constants
module. -/
def MONGOSERVER_SVR : String := "mongodb+srv://"

/-- Modelled from the spec: separator before the password. -/
def COLON : String := ":"

/-- Modelled from the spec: separator before the host. -/
def AT : String := "@"

/-- Modelled from the spec: separator before the login database. -/
def SLASH : String := "/"

/-- Modelled from the spec: separator before a query parameter. -/
def AND : String := "&"

/-- Modelled from the spec: separator between a parameter and its value. -/
def EQUAL_SIGN : String := "="

/-- Modelled from the spec: start of the query part when no database path
segment is present (`@host/?authSource=...`). -/
def BEGINNING_STRING : String := "/?"

/-- Modelled from the spec: name of the auth-source query parameter. -/
def AUTH_SOURCE : String := "authSource"

/-- Modelled from the spec: name of the auth-mechanism query parameter. -/
def AUTH_MECHANISM : String := "authMechanism"

namespace AUTH_METHODS

/-- Modelled from the spec: recognized auth mechanism `DEFAULT`. -/
def DEFAULT : String := "DEFAULT"

/-- Modelled from the spec: recognized auth mechanism `SCRAM-SHA-256`. -/
def SCRAM_256 : String := "SCRAM-SHA-256"

/-- Modelled from the spec: recognized auth mechanism `SCRAM-SHA-1`. -/
def SCRAM_1 : String := "SCRAM-SHA-1"

/-- Modelled from the spec: recognized certificate-based auth mechanism
(`MONGODB-X509`, the value named in the source's doc comment). -/
def TLS : String := "MONGODB-X509"

end AUTH_METHODS

/-- Value of one `tlsOptions` entry: the source's doc comment allows
strings (file paths, passwords) and booleans, and the constructor branches
on `typeof value === string`. -/
inductive TlsValue where
  | str : String → TlsValue
  | bool : Bool → TlsValue
deriving DecidableEq, Repr

/-- String coercion used when a non-string value is concatenated into the
URI. -/
def tlsValueRaw : TlsValue → String
  | .str s => s
  | .bool b => if b then "true" else "false"

/-- The `options` object taken by the `MongoManager` constructor.  Absent
JavaScript properties are `none`; `tlsOptions` and `clientOptions` keep
their keys in insertion order as association lists. -/
structure ConnectionConfig where
  connectionUri : Option String := none
  username : Option String := none
  password : Option String := none
  host : Option String := none
  loginDatabase : Option String := none
  authSource : Option String := none
  authMechanism : Option String := none
  svrString : Bool := false
  tlsOptions : Option (List (String × TlsValue)) := none
  clientOptions : Option (List (String × String)) := none
deriving DecidableEq, Repr

/-- JavaScript truthiness of an optional string: `undefined` and the empty
string are falsy. -/
def jsTruthy : Option String → Bool
  | none => false
  | some s => if s = "" then false else true

/-- String coercion of a possibly absent value: `undefined` concatenates
as the literal text `"undefined"`. -/
def jsString : Option String → String
  | none => "undefined"
  | some s => s

/-- Value of an optional string where the builder has already established
truthiness. -/
def jsGet (o : Option String) : String := o.getD ""

/-- The `tlsOptions` loop of the constructor (lines 92-106): each key is
appended to the accumulator as `&key=value`, percent-encoding string
values only. -/
def serializeTlsOptions (acc : String) (tls : List (String × TlsValue)) :
    String :=
  tls.foldl
    (fun a kv =>
      a ++ AND ++ kv.1 ++ EQUAL_SIGN ++
        (match kv.2 with
         | .str s => encodeURIComponent s
         | .bool b => tlsValueRaw (.bool b)))
    acc

/-- The `clientOptions` loop of the constructor (lines 124-131): each key
is appended to the accumulator as `&key=value`, with no encoding. -/
def serializeClientOptions (acc : String) (opts : List (String × String)) :
    String :=
  opts.foldl (fun a kv => a ++ AND ++ kv.1 ++ EQUAL_SIGN ++ kv.2) acc

/-- Derived-URI branch of the constructor (lines 47-133), mirrored
statement by statement: `connectionUri` grows left to right while the
`clientOptions` accumulator collects TLS and generic parameters, and the
accumulator is appended once at the end (line 133).  The dead append of
the still-empty accumulator at line 119 is kept. -/
def buildDerivedUri (o : ConnectionConfig) : String :=
  let username := encodeURIComponent (jsString o.username)
  let uri1 := (if o.svrString then MONGOSERVER_SVR else MONGOSERVER) ++ username
  let uri2 :=
    if jsTruthy o.password then
      uri1 ++ COLON ++ encodeURIComponent (jsGet o.password)
    else uri1
  let uri3 :=
    if jsTruthy o.loginDatabase then
      uri2 ++ AT ++ jsString o.host ++ SLASH ++ jsGet o.loginDatabase
    else if jsTruthy o.authSource then
      uri2 ++ AT ++ jsString o.host ++ BEGINNING_STRING ++ AUTH_SOURCE ++
        EQUAL_SIGN ++ jsGet o.authSource
    else uri2
  let step :=
    if jsTruthy o.authMechanism then
      let authMechanism := AND ++ AUTH_MECHANISM ++ EQUAL_SIGN
      match o.tlsOptions with
      | some tls =>
        (uri3 ++ authMechanism ++ encodeURIComponent (jsGet o.authMechanism),
         serializeTlsOptions "" tls)
      | none =>
        if jsGet o.authMechanism = AUTH_METHODS.DEFAULT ∨
           jsGet o.authMechanism = AUTH_METHODS.SCRAM_256 ∨
           jsGet o.authMechanism = AUTH_METHODS.SCRAM_1 ∨
           jsGet o.authMechanism = AUTH_METHODS.TLS then
          (uri3 ++ authMechanism ++ jsGet o.authMechanism, "")
        else
          (uri3 ++ authMechanism ++ AUTH_METHODS.DEFAULT, "")
    else (uri3 ++ "", "")
  let clientOpts :=
    match o.clientOptions with
    | some opts => serializeClientOptions step.2 opts
    | none => step.2
  step.1 ++ clientOpts

/-- The URI computed by the `MongoManager` constructor: a truthy
`connectionUri` option (a non-empty string) is taken verbatim (lines
45-46), otherwise the URI is derived from the other options. -/
def buildUri (o : ConnectionConfig) : String :=
  if jsTruthy o.connectionUri then jsGet o.connectionUri
  else buildDerivedUri o

/-- Error taxonomy for the handle operations. -/
inductive MongoError where
  | invalidConfig
  | noDatabaseSelected
  | alreadyClosed
  | notConnected
deriving DecidableEq, Repr

/-- Database handle returned by the driver's `db(name)`. -/
structure MongoDatabase where
  name : String
deriving DecidableEq, Repr

/-- Collection handle returned by a database's `collection(name)`. -/
structure MongoCollection where
  databaseName : String
  name : String
deriving DecidableEq, Repr

/-- State of the driver client owned by a manager. -/
structure MongoClientState where
  uri : String
  connected : Bool := false
  closed : Bool := false
deriving DecidableEq, Repr

/-- State of one `MongoManager` instance. -/
structure MongoManagerState where
  connectionUri : String
  client : MongoClientState
  database : Option MongoDatabase := none
  collection : Option MongoCollection := none
deriving DecidableEq, Repr

/-- Constructor (lines 44-137): build the URI and create the client; no
database or collection is selected yet. -/
def mkMongoManager (o : ConnectionConfig) : MongoManagerState :=
  let uri := buildUri o
  { connectionUri := uri, client := { uri := uri } }

/-- The `connect` method (lines 143-152): pass-through to the driver. -/
def connect (m : MongoManagerState) : MongoManagerState :=
  { m with client := { m.client with connected := true } }

/-- The `database` setter (lines 181-188): `this._client.db(name)` creates
a database handle without touching the network, so the setter always
succeeds. -/
def setDatabase (m : MongoManagerState) (databaseName : String) :
    MongoManagerState :=
  { m with database := some { name := databaseName } }

/-- The `collection` setter (lines 190-197): with no database selected,
`this._database` is `undefined` and the property access throws; the catch
block rethrows via `errorMessage`.  That failure is the
no-database-selected error of the taxonomy.  With a database selected the
driver's `collection(name)` is a pure handle creation. -/
def setCollection (m : MongoManagerState) (collectionName : String) :
    Except MongoError MongoManagerState :=
  match m.database with
  | none => .error .noDatabaseSelected
  | some db =>
    .ok { m with
          collection := some { databaseName := db.name, name := collectionName } }

/-- The `closeConnection` method (lines 225-227): it fires the driver's
`close()` without awaiting it and performs no state check of its own, so
the method never raises, whatever the client state. -/
def closeConnection (m : MongoManagerState) :
    Except MongoError MongoManagerState :=
  .ok { m with client := { m.client with closed := true } }

/-- Scheme prefix chosen by the constructor (lines 56-60). -/
def schemeString (o : ConnectionConfig) : String :=
  if o.svrString then MONGOSERVER_SVR else MONGOSERVER

/-- Encoded username as embedded in the URI (line 48). -/
def userSegment (o : ConnectionConfig) : String :=
  encodeURIComponent (jsString o.username)

/-- Password segment (lines 63-65). -/
def passwordSegment (o : ConnectionConfig) : String :=
  if jsTruthy o.password then COLON ++ encodeURIComponent (jsGet o.password)
  else ""

/-- Authority segment (lines 68-80): host plus login database, or host
plus `authSource` parameter, or nothing. -/
def authoritySegment (o : ConnectionConfig) : String :=
  if jsTruthy o.loginDatabase then
    AT ++ jsString o.host ++ SLASH ++ jsGet o.loginDatabase
  else if jsTruthy o.authSource then
    AT ++ jsString o.host ++ BEGINNING_STRING ++ AUTH_SOURCE ++ EQUAL_SIGN ++
      jsGet o.authSource
  else ""

/-- Auth-mechanism parameter as appended to the URI (lines 82-117). -/
def mechanismSegment (o : ConnectionConfig) : String :=
  if jsTruthy o.authMechanism then
    AND ++ AUTH_MECHANISM ++ EQUAL_SIGN ++
      (match o.tlsOptions with
       | some _ => encodeURIComponent (jsGet o.authMechanism)
       | none =>
         if jsGet o.authMechanism = AUTH_METHODS.DEFAULT ∨
            jsGet o.authMechanism = AUTH_METHODS.SCRAM_256 ∨
            jsGet o.authMechanism = AUTH_METHODS.SCRAM_1 ∨
            jsGet o.authMechanism = AUTH_METHODS.TLS then
           jsGet o.authMechanism
         else AUTH_METHODS.DEFAULT)
  else ""

/-- TLS parameters contributed to the accumulator (lines 91-106); they are
only produced when an auth mechanism is requested. -/
def tlsSegment (o : ConnectionConfig) : String :=
  if jsTruthy o.authMechanism then
    match o.tlsOptions with
    | some tls => serializeTlsOptions "" tls
    | none => ""
  else ""

/-- Generic client-options parameters (lines 124-131). -/
def clientOptionsSegment (o : ConnectionConfig) : String :=
  match o.clientOptions with
  | some opts => serializeClientOptions "" opts
  | none => ""

lemma string_ext {a b : String} (h : a.data = b.data) : a = b := by
  cases a; cases b; exact congrArg String.mk h

lemma jsTruthy_none : jsTruthy none = false := rfl

lemma jsTruthy_some (s : String) : jsTruthy (some s) = if s = "" then false else true := rfl

lemma jsTruthy_some_true {s : String} (h : s ≠ "") : jsTruthy (some s) = true := by
  simp [jsTruthy, h]

lemma jsGet_some (s : String) : jsGet (some s) = s := rfl

lemma serializeClientOptions_acc (opts : List (String × String)) :
    ∀ acc, serializeClientOptions acc opts = acc ++ serializeClientOptions "" opts := by
  induction opts with
  | nil => intro acc; simp [serializeClientOptions]
  | cons kv tl ih =>
    intro acc
    simp only [serializeClientOptions, List.foldl_cons] at *
    rw [ih, ih ("" ++ AND ++ kv.1 ++ EQUAL_SIGN ++ kv.2)]
    simp [String.append_assoc]

lemma serializeTlsOptions_acc (tls : List (String × TlsValue)) :
    ∀ acc, serializeTlsOptions acc tls = acc ++ serializeTlsOptions "" tls := by
  induction tls with
  | nil => intro acc; simp [serializeTlsOptions]
  | cons kv tl ih =>
    intro acc
    simp only [serializeTlsOptions, List.foldl_cons] at *
    rw [ih, ih ("" ++ AND ++ kv.1 ++ EQUAL_SIGN ++ _)]
    simp [String.append_assoc]

lemma buildDerivedUri_parts (o : ConnectionConfig) :
    buildDerivedUri o =
      schemeString o ++ userSegment o ++ passwordSegment o ++
        authoritySegment o ++ mechanismSegment o ++ tlsSegment o ++
        clientOptionsSegment o := by
  simp only [buildDerivedUri, schemeString, userSegment, passwordSegment,
    authoritySegment, mechanismSegment, tlsSegment, clientOptionsSegment]
  generalize (if o.svrString then MONGOSERVER_SVR else MONGOSERVER) ++
      encodeURIComponent (jsString o.username) = u1
  generalize encodeURIComponent (jsGet o.password) = pw
  generalize encodeURIComponent (jsGet o.authMechanism) = amEnc
  generalize jsString o.host = hostStr
  by_cases hp : jsTruthy o.password <;>
    by_cases hld : jsTruthy o.loginDatabase <;>
      by_cases has : jsTruthy o.authSource <;>
        by_cases hm : jsTruthy o.authMechanism <;>
          rcases o.tlsOptions with _ | tls <;>
            rcases o.clientOptions with _ | opts <;>
              simp only [hp, hld, has, hm, if_true, if_false,
                Bool.true_eq_false, Bool.false_eq_true, ite_true, ite_false]
  all_goals try split_ifs
  all_goals try rw [serializeClientOptions_acc]
  all_goals simp only [String.append_assoc, String.append_empty,
    String.empty_append]

lemma charOfNat_toNat {n : Nat} (h : n.isValidChar) : (Char.ofNat n).toNat = n := by
  unfold Char.ofNat Char.ofNatAux
  rw [dif_pos h]
  rfl

lemma char_toNat_lt (c : Char) : c.toNat < 1114112 := by
  rcases c.valid with h | h
  · simp only [Char.toNat]
    omega
  · simp only [Char.toNat]
    omega

lemma char_valid_toNat (c : Char) : c.toNat.isValidChar := c.valid

lemma hexDigit_toNat {n : Nat} (h : n < 16) :
    (hexDigit n).toNat = if n < 10 then 48 + n else 55 + n := by
  unfold hexDigit
  split_ifs with h1 <;> exact charOfNat_toNat (Or.inl (by omega))

lemma utf8Bytes_lt_256 {n : Nat} (h : n < 1114112) : ∀ b ∈ utf8Bytes n, b < 256 := by
  unfold utf8Bytes
  split_ifs <;> intro b hb <;> simp at hb <;> omega

lemma hexVal_hexDigit {n : Nat} (h : n < 16) : hexVal (hexDigit n) = some n := by
  unfold hexVal
  rw [hexDigit_toNat h]
  split_ifs <;> first | (exfalso; omega) | (congr 1; omega)

lemma hexDigit_toNat_ne_61 {n : Nat} (h : n < 16) : (hexDigit n).toNat ≠ 61 := by
  rw [hexDigit_toNat h]
  split_ifs <;> omega

lemma eq_char_not_mem_encodeChar (c : Char) : '=' ∉ encodeChar c := by
  unfold encodeChar
  split_ifs with hu
  · intro hmem
    rw [List.mem_singleton] at hmem
    rw [← hmem] at hu
    exact absurd hu (by decide)
  · intro hmem
    rw [List.mem_flatten] at hmem
    obtain ⟨l, hl, hcl⟩ := hmem
    rw [List.mem_map] at hl
    obtain ⟨b, hb, rfl⟩ := hl
    have hb256 : b < 256 := utf8Bytes_lt_256 (char_toNat_lt c) b hb
    simp only [pctByte, List.mem_cons, List.not_mem_nil, or_false] at hcl
    rcases hcl with h1 | h1 | h1
    · exact absurd h1 (by decide)
    · exact hexDigit_toNat_ne_61 (by omega) (congrArg Char.toNat h1).symm
    · exact hexDigit_toNat_ne_61 (by omega) (congrArg Char.toNat h1).symm

lemma eq_char_not_mem_encode (s : String) : '=' ∉ (encodeURIComponent s).data := by
  unfold encodeURIComponent
  intro hmem
  rw [List.mem_flatten] at hmem
  obtain ⟨l, hl, hcl⟩ := hmem
  rw [List.mem_map] at hl
  obtain ⟨c, _, rfl⟩ := hl
  exact eq_char_not_mem_encodeChar c hcl

lemma not_infix_of_not_mem {p l : List Char} {a : Char} (hp : a ∈ p)
    (hl : a ∉ l) : ¬ p <:+: l :=
  fun h => hl (h.subset hp)

lemma append_cons_eq {c : Char} :
    ∀ (a d b e : List Char), a ++ c :: b = d ++ c :: e → c ∉ a → c ∉ d →
      a = d ∧ b = e := by
  intro a
  induction a with
  | nil =>
    intro d b e h _ hd
    cases d with
    | nil => simpa using h
    | cons x d2 =>
      simp only [List.nil_append, List.cons_append, List.cons.injEq] at h
      exact absurd (h.1 ▸ List.mem_cons_self x d2) hd
  | cons y a2 ih =>
    intro d b e h ha hd
    cases d with
    | nil =>
      simp only [List.cons_append, List.nil_append, List.cons.injEq] at h
      exact absurd (h.1 ▸ List.mem_cons_self y a2) ha
    | cons x d2 =>
      simp only [List.cons_append, List.cons.injEq] at h
      obtain ⟨rfl, h2⟩ := h
      have := ih d2 b e h2 (fun hm => ha (List.mem_cons_of_mem _ hm))
        (fun hm => hd (List.mem_cons_of_mem _ hm))
      exact ⟨by rw [this.1], this.2⟩

lemma infix_concat_single {c : Char} {p A B : List Char} (hA : c ∉ A)
    (hB : c ∉ B) (hp : c ∉ p) (h : (p ++ [c]) <:+: (A ++ c :: B)) :
    p <:+ A := by
  obtain ⟨s, t, hst⟩ := h
  have hcount : (A ++ c :: B).count c = 1 := by
    simp [List.count_append, List.count_cons, List.count_eq_zero.mpr hA,
      List.count_eq_zero.mpr hB]
  rw [← hst] at hcount
  have hs : c ∉ s ∧ c ∉ t := by
    simp [List.count_append, List.count_cons] at hcount
    constructor <;> rw [← List.count_eq_zero (a := c)] <;> omega
  have hst2 : A ++ c :: B = (s ++ p) ++ c :: t := by
    rw [← hst]
    simp [List.append_assoc]
  have hsp : c ∉ s ++ p := by
    rw [List.mem_append]
    rintro (h1 | h1)
    · exact hs.1 h1
    · exact hp h1
  have := append_cons_eq A (s ++ p) B t hst2 hA hsp
  exact ⟨s, this.1.symm⟩

lemma suffix_getLast {p l : List Char} (h : p <:+ l) (hp : p ≠ []) :
    l.getLast? = p.getLast? := by
  obtain ⟨s, rfl⟩ := h
  rw [List.getLast?_append]
  cases hq : p.getLast? with
  | none => exact absurd (List.getLast?_eq_none_iff.mp hq) hp
  | some x => simp

lemma utf8Decode_cons_low {b : Nat} (rest : List Nat) (h : b < 0x80) :
    utf8Decode (b :: rest) = (utf8Decode rest).map (fun cs => Char.ofNat b :: cs) := by
  rw [utf8Decode]
  rw [if_pos h]

lemma utf8Decode_utf8Bytes (c : Char) (rest : List Nat) :
    utf8Decode (utf8Bytes c.toNat ++ rest) =
      (utf8Decode rest).map (fun cs => c :: cs) := by
  have hlt : c.toNat < 1114112 := char_toNat_lt c
  unfold utf8Bytes
  by_cases h1 : c.toNat < 0x80
  · rw [if_pos h1]
    show utf8Decode (c.toNat :: rest) = _
    rw [utf8Decode_cons_low rest h1, Char.ofNat_toNat]
  · rw [if_neg h1]
    by_cases h2 : c.toNat < 0x800
    · rw [if_pos h2]
      show utf8Decode (_ :: _ :: rest) = _
      rw [utf8Decode]
      rw [if_neg (by omega), if_neg (by omega), if_pos (by omega)]
      rw [utf8DecodeTwo]
      rw [if_pos (by omega)]
      have : (0xC0 + c.toNat / 64 - 0xC0) * 64 + (0x80 + c.toNat % 64 - 0x80)
          = c.toNat := by omega
      rw [this, Char.ofNat_toNat]
    · rw [if_neg h2]
      by_cases h3 : c.toNat < 0x10000
      · rw [if_pos h3]
        show utf8Decode (_ :: _ :: _ :: rest) = _
        rw [utf8Decode]
        rw [if_neg (by omega), if_neg (by omega), if_neg (by omega),
          if_pos (by omega)]
        rw [utf8DecodeThree]
        rw [if_pos (by refine ⟨⟨?_, ?_⟩, ?_, ?_⟩ <;> omega)]
        have : (0xE0 + c.toNat / 4096 - 0xE0) * 4096 +
            (0x80 + c.toNat / 64 % 64 - 0x80) * 64 +
            (0x80 + c.toNat % 64 - 0x80) = c.toNat := by omega
        rw [this, Char.ofNat_toNat]
      · rw [if_neg h3]
        show utf8Decode (_ :: _ :: _ :: _ :: rest) = _
        rw [utf8Decode]
        rw [if_neg (by omega), if_neg (by omega), if_neg (by omega),
          if_neg (by omega), if_pos (by omega)]
        rw [utf8DecodeFour]
        rw [if_pos (by refine ⟨⟨?_, ?_⟩, ⟨?_, ?_⟩, ?_, ?_⟩ <;> omega)]
        have : (0xF0 + c.toNat / 262144 - 0xF0) * 262144 +
            (0x80 + c.toNat / 4096 % 64 - 0x80) * 4096 +
            (0x80 + c.toNat / 64 % 64 - 0x80) * 64 +
            (0x80 + c.toNat % 64 - 0x80) = c.toNat := by omega
        rw [this, Char.ofNat_toNat]

lemma unreserved_ne_pct {c : Char} (h : isUnreservedChar c = true) : c ≠ '%' := by
  intro rfl_h
  rw [rfl_h] at h
  exact absurd h (by decide)

lemma pctToBytes_cons_plain {c : Char} (rest : List Char) (h : c ≠ '%') :
    pctToBytes (c :: rest) =
      (pctToBytes rest).map (fun bs => utf8Bytes c.toNat ++ bs) := by
  rw [pctToBytes]
  rw [if_neg h]

lemma pctToBytes_pctBytes (bs : List Nat) (hbs : ∀ b ∈ bs, b < 256)
    (rest : List Char) :
    pctToBytes ((bs.map pctByte).flatten ++ rest) =
      (pctToBytes rest).map (fun x => bs ++ x) := by
  induction bs with
  | nil =>
    simp only [List.map_nil, List.flatten_nil, List.nil_append]
    cases pctToBytes rest <;> rfl
  | cons b tl ih =>
    have hb : b < 256 := hbs b (List.mem_cons_self b tl)
    have htl : ∀ x ∈ tl, x < 256 := fun x hx => hbs x (List.mem_cons_of_mem _ hx)
    simp only [List.map_cons, List.flatten_cons, pctByte, List.cons_append,
      List.append_assoc]
    rw [pctToBytes]
    rw [if_pos rfl]
    rw [pctEscape]
    rw [hexVal_hexDigit (by omega), hexVal_hexDigit (by omega)]
    simp only [Option.some_bind, List.nil_append]
    rw [ih htl]
    have : 16 * (b / 16) + b % 16 = b := by omega
    rw [this]
    cases pctToBytes rest <;> simp

lemma pctToBytes_encodeChar (c : Char) (rest : List Char) :
    pctToBytes (encodeChar c ++ rest) =
      (pctToBytes rest).map (fun x => utf8Bytes c.toNat ++ x) := by
  unfold encodeChar
  by_cases hu : isUnreservedChar c = true
  · rw [if_pos hu]
    show pctToBytes (c :: rest) = _
    exact pctToBytes_cons_plain rest (unreserved_ne_pct hu)
  · rw [if_neg hu]
    exact pctToBytes_pctBytes _ (utf8Bytes_lt_256 (char_toNat_lt c)) rest

lemma pctToBytes_encodeAll (l : List Char) (rest : List Char) :
    pctToBytes ((l.map encodeChar).flatten ++ rest) =
      (pctToBytes rest).map
        (fun x => (l.map (fun c => utf8Bytes c.toNat)).flatten ++ x) := by
  induction l with
  | nil =>
    simp only [List.map_nil, List.flatten_nil, List.nil_append]
    cases pctToBytes rest <;> simp
  | cons c tl ih =>
    simp only [List.map_cons, List.flatten_cons, List.append_assoc]
    rw [pctToBytes_encodeChar c _, ih]
    cases pctToBytes rest <;> simp

lemma utf8Decode_encodeAll (l : List Char) :
    utf8Decode ((l.map (fun c => utf8Bytes c.toNat)).flatten) = some l := by
  induction l with
  | nil => rfl
  | cons c tl ih =>
    simp only [List.map_cons, List.flatten_cons]
    rw [utf8Decode_utf8Bytes c _, ih]
    rfl

/-- Round trip: percent-decoding inverts `encodeURIComponent` on every
string. -/
lemma percentDecode_encodeURIComponent (s : String) :
    percentDecode (encodeURIComponent s) = some s := by
  unfold percentDecode encodeURIComponent
  show (pctToBytes ((s.data.map encodeChar).flatten)).bind _ = _
  have h1 := pctToBytes_encodeAll s.data []
  rw [List.append_nil] at h1
  have h2 : pctToBytes ((s.data.map encodeChar).flatten) =
      some ((s.data.map (fun c => utf8Bytes c.toNat)).flatten) := by
    rw [h1]
    simp [pctToBytes]
  rw [h2]
  rw [Option.some_bind]
  rw [utf8Decode_encodeAll s.data]
  show some (String.mk s.data) = some s
  cases s
  rfl

lemma buildUri_not_truthy {o : ConnectionConfig}
    (hc : jsTruthy o.connectionUri = false) :
    buildUri o = buildDerivedUri o := by
  unfold buildUri
  rw [if_neg (show ¬ (jsTruthy o.connectionUri = true) by rw [hc]; decide)]

lemma mechanismSegment_empty {o : ConnectionConfig}
    (hm : jsTruthy o.authMechanism = false) : mechanismSegment o = "" := by
  unfold mechanismSegment
  rw [if_neg (show ¬ (jsTruthy o.authMechanism = true) by rw [hm]; decide)]

lemma tlsSegment_empty {o : ConnectionConfig}
    (hm : jsTruthy o.authMechanism = false) : tlsSegment o = "" := by
  unfold tlsSegment
  rw [if_neg (show ¬ (jsTruthy o.authMechanism = true) by rw [hm]; decide)]

lemma clientOptionsSegment_none {o : ConnectionConfig}
    (hcl : o.clientOptions = none) : clientOptionsSegment o = "" := by
  unfold clientOptionsSegment
  rw [hcl]

/-- C2: whenever `connectionUri` is a non-empty string, the constructor
returns it verbatim as the URI; since the conclusion depends only on that
string, no other configuration field can affect the result. -/
theorem C2_explicitUri_verbatim (o : ConnectionConfig) (s : String)
    (h : o.connectionUri = some s) (hne : s ≠ "") : buildUri o = s := by
  unfold buildUri
  rw [h, jsTruthy_some_true hne, if_pos rfl]
  rfl

theorem C2_explicitUri_verbatim_witness :
    buildUri
      { connectionUri := some "mongodb://everything",
        username := some "zz", password := some "p", host := some "h2",
        loginDatabase := some "db", authSource := some "a",
        authMechanism := some "DEFAULT", svrString := true,
        tlsOptions := some [("tls", TlsValue.bool true)],
        clientOptions := some [("w", "1")] } = "mongodb://everything" :=
  C2_explicitUri_verbatim _ _ rfl (by decide)

/-- C8: selecting a collection while no database is selected fails with
the no-database-selected error, whether or not the handle was connected
first. -/
theorem C8_selectCollection_requires_database (m : MongoManagerState)
    (name : String) (h : m.database = none) :
    setCollection m name = .error .noDatabaseSelected := by
  unfold setCollection
  rw [h]

theorem C8_selectCollection_requires_database_witness :
    setCollection
      (connect (mkMongoManager { username := some "u", host := some "h" }))
      "measurements" = .error .noDatabaseSelected :=
  C8_selectCollection_requires_database _ _ rfl

/-- C9 counterexample: a second `closeConnection` on an already closed
manager succeeds again; it does not fail with `alreadyClosed`. -/
theorem C9_counterexample_second_close_succeeds :
    (closeConnection
        { connectionUri := "mongodb://u@h/db",
          client := { uri := "mongodb://u@h/db" } } =
      Except.ok
        { connectionUri := "mongodb://u@h/db",
          client := { uri := "mongodb://u@h/db", closed := true } }) ∧
    (closeConnection
        { connectionUri := "mongodb://u@h/db",
          client := { uri := "mongodb://u@h/db", closed := true } } =
      Except.ok
        { connectionUri := "mongodb://u@h/db",
          client := { uri := "mongodb://u@h/db", closed := true } }) ∧
    (closeConnection
        { connectionUri := "mongodb://u@h/db",
          client := { uri := "mongodb://u@h/db", closed := true } } ≠
      Except.error MongoError.alreadyClosed) :=
  ⟨rfl, rfl, fun h => Except.noConfusion h⟩

/-- C9 amended: `closeConnection` always succeeds, marks the client
closed, and a repeated call is an identical success, never an
`alreadyClosed` failure (the wrapper has no closed-state check). -/
theorem C9_close_twice_both_succeed (m : MongoManagerState) :
    ∃ m1, closeConnection m = .ok m1 ∧ m1.client.closed = true ∧
      closeConnection m1 = .ok m1 := by
  cases m with
  | mk uri client db coll =>
    cases client with
    | mk curi conn closed => exact ⟨_, rfl, rfl, rfl⟩

/-- C10: with no explicit URI and a missing username, the constructor
still produces a URI whose username position holds the literal text
`undefined` (the JavaScript string coercion of the missing value). -/
theorem C10_missing_username_embeds_undefined (o : ConnectionConfig)
    (hc : jsTruthy o.connectionUri = false) (hu : o.username = none) :
    ∃ rest, buildUri o = schemeString o ++ "undefined" ++ rest := by
  refine ⟨passwordSegment o ++ authoritySegment o ++ mechanismSegment o ++
    tlsSegment o ++ clientOptionsSegment o, ?_⟩
  rw [buildUri_not_truthy hc, buildDerivedUri_parts]
  have huser : userSegment o = "undefined" := by
    unfold userSegment
    rw [hu]
    rfl
  rw [huser]
  simp only [String.append_assoc]

theorem C10_missing_username_embeds_undefined_witness :
    ∃ rest, buildUri { host := some "h", loginDatabase := some "db" } =
      schemeString { host := some "h", loginDatabase := some "db" } ++
        "undefined" ++ rest :=
  C10_missing_username_embeds_undefined _ rfl rfl

/-- C1 amended: the constructor performs no validation at all.  With no
explicit URI and the username/host pair not fully provided it still
produces a URI: a missing username appears as the literal text
`undefined` right after the scheme, and a missing host appears as
`@undefined/` before the login database. -/
theorem C1_no_validation_undefined_embedded (o : ConnectionConfig)
    (hc : jsTruthy o.connectionUri = false)
    (_hmiss : ¬ (o.username ≠ none ∧ o.host ≠ none)) :
    (o.username = none →
      ∃ rest, buildUri o = schemeString o ++ "undefined" ++ rest) ∧
    (o.host = none → jsTruthy o.loginDatabase = true →
      ∃ A B, buildUri o = A ++ "@undefined/" ++ B) := by
  constructor
  · intro hu
    refine ⟨passwordSegment o ++ authoritySegment o ++ mechanismSegment o ++
      tlsSegment o ++ clientOptionsSegment o, ?_⟩
    rw [buildUri_not_truthy hc, buildDerivedUri_parts]
    have huser : userSegment o = "undefined" := by
      unfold userSegment
      rw [hu]
      rfl
    rw [huser]
    simp only [String.append_assoc]
  · intro hh hld
    refine ⟨schemeString o ++ userSegment o ++ passwordSegment o,
      jsGet o.loginDatabase ++ mechanismSegment o ++ tlsSegment o ++
        clientOptionsSegment o, ?_⟩
    rw [buildUri_not_truthy hc, buildDerivedUri_parts]
    have hauth : authoritySegment o = "@undefined/" ++ jsGet o.loginDatabase := by
      unfold authoritySegment
      rw [if_pos hld, hh]
      rfl
    rw [hauth]
    simp only [String.append_assoc]

theorem C1_no_validation_undefined_embedded_witness :
    (({ loginDatabase := some "db" } : ConnectionConfig).username = none →
      ∃ rest, buildUri { loginDatabase := some "db" } =
        schemeString { loginDatabase := some "db" } ++ "undefined" ++ rest) ∧
    (({ loginDatabase := some "db" } : ConnectionConfig).host = none →
      jsTruthy ({ loginDatabase := some "db" } : ConnectionConfig).loginDatabase = true →
      ∃ A B, buildUri { loginDatabase := some "db" } = A ++ "@undefined/" ++ B) :=
  C1_no_validation_undefined_embedded _ rfl (by decide)

/-- C3 counterexample: with `loginDatabase` set, a `clientOptions` entry
named `authSource` still puts the substring `authSource=` into the URI,
so the no-`authSource=` part of the claim fails as stated. -/
theorem C3_counterexample_clientOptions_inject :
    buildUri
      { username := some "u", host := some "h", loginDatabase := some "db",
        authSource := some "x",
        clientOptions := some [("authSource", "x")] } =
      "mongodb://u@h/db&authSource=x" ∧
    ("authSource=").data <:+: ("mongodb://u@h/db&authSource=x").data := by
  constructor
  · rfl
  · decide

/-- C3 amended: with a non-empty `loginDatabase` the URI contains the
authority segment `@host/loginDatabase`, and the `authSource` field has
no effect at all on the produced URI (`loginDatabase` takes precedence);
an `authSource=` substring can only come from other raw-embedded fields
such as `clientOptions` entries. -/
theorem C3_loginDatabase_precedence (o : ConnectionConfig) (db : String)
    (hc : jsTruthy o.connectionUri = false)
    (hdb : o.loginDatabase = some db) (hne : db ≠ "") :
    (∃ A B, buildUri o = A ++ (AT ++ jsString o.host ++ SLASH ++ db) ++ B) ∧
    (∀ a : Option String, buildUri { o with authSource := a } = buildUri o) := by
  have hld : jsTruthy o.loginDatabase = true := by
    rw [hdb]
    exact jsTruthy_some_true hne
  constructor
  · refine ⟨schemeString o ++ userSegment o ++ passwordSegment o,
      mechanismSegment o ++ tlsSegment o ++ clientOptionsSegment o, ?_⟩
    rw [buildUri_not_truthy hc, buildDerivedUri_parts]
    have hauth : authoritySegment o = AT ++ jsString o.host ++ SLASH ++ db := by
      unfold authoritySegment
      rw [if_pos hld, hdb]
      rfl
    rw [hauth]
    simp only [String.append_assoc]
  · intro a
    rw [buildUri_not_truthy hc,
      buildUri_not_truthy (o := { o with authSource := a }) hc,
      buildDerivedUri_parts, buildDerivedUri_parts]
    have hauth : authoritySegment { o with authSource := a } =
        authoritySegment o := by
      show (if jsTruthy o.loginDatabase = true then
          AT ++ jsString o.host ++ SLASH ++ jsGet o.loginDatabase
        else if jsTruthy a = true then
          AT ++ jsString o.host ++ BEGINNING_STRING ++ AUTH_SOURCE ++
            EQUAL_SIGN ++ jsGet a
        else "") = authoritySegment o
      unfold authoritySegment
      rw [if_pos hld, if_pos hld]
    rw [hauth]
    rfl

theorem C3_loginDatabase_precedence_witness :
    (∃ A B,
      buildUri
        { username := some "u", host := some "h",
          loginDatabase := some "db", authSource := some "x" } =
      A ++ (AT ++ jsString (some "h") ++ SLASH ++ "db") ++ B) ∧
    (∀ a : Option String,
      buildUri
        { username := some "u", host := some "h",
          loginDatabase := some "db", authSource := a } =
      buildUri
        { username := some "u", host := some "h",
          loginDatabase := some "db", authSource := some "x" }) :=
  C3_loginDatabase_precedence _ "db" rfl rfl (by decide)

/-- C4 counterexample: with an auth mechanism and TLS options, the code
appends the auth-mechanism parameter directly but defers the TLS
parameters through the accumulator, so the TLS parameters come after the
auth mechanism, not before it as the claim states. -/
theorem C4_counterexample_authMechanism_first :
    buildUri
      { username := some "u", host := some "h", loginDatabase := some "db",
        authMechanism := some "MONGODB-X509",
        tlsOptions := some [("tls", TlsValue.bool true)] } =
      "mongodb://u@h/db&authMechanism=MONGODB-X509&tls=true" ∧
    "mongodb://u@h/db&authMechanism=MONGODB-X509&tls=true" ≠
      "mongodb://u@h/db&tls=true&authMechanism=MONGODB-X509" := by
  constructor
  · rfl
  · decide

/-- C4 amended: with an auth mechanism and TLS options, the URI is the
base segments followed by exactly one auth-mechanism parameter, then the
serialized TLS parameters exactly once, then the generic client options
exactly once — the auth mechanism precedes the TLS parameters. -/
theorem C4_mechanism_precedes_tls (o : ConnectionConfig)
    (tls : List (String × TlsValue))
    (hc : jsTruthy o.connectionUri = false)
    (hm : jsTruthy o.authMechanism = true)
    (ht : o.tlsOptions = some tls) :
    buildUri o =
      schemeString o ++ userSegment o ++ passwordSegment o ++
        authoritySegment o ++
        (AND ++ AUTH_MECHANISM ++ EQUAL_SIGN ++
          encodeURIComponent (jsGet o.authMechanism)) ++
        serializeTlsOptions "" tls ++ clientOptionsSegment o := by
  rw [buildUri_not_truthy hc, buildDerivedUri_parts]
  have hmech : mechanismSegment o =
      AND ++ AUTH_MECHANISM ++ EQUAL_SIGN ++
        encodeURIComponent (jsGet o.authMechanism) := by
    unfold mechanismSegment
    rw [if_pos hm, ht]
  have htls : tlsSegment o = serializeTlsOptions "" tls := by
    unfold tlsSegment
    rw [if_pos hm, ht]
  rw [hmech, htls]

theorem C4_mechanism_precedes_tls_witness :
    buildUri
      { username := some "u", host := some "h", loginDatabase := some "db",
        authMechanism := some "MONGODB-X509",
        tlsOptions := some [("tls", TlsValue.bool true)],
        clientOptions := some [("w", "1")] } =
      schemeString
        { username := some "u", host := some "h", loginDatabase := some "db",
          authMechanism := some "MONGODB-X509",
          tlsOptions := some [("tls", TlsValue.bool true)],
          clientOptions := some [("w", "1")] } ++
      userSegment
        { username := some "u", host := some "h", loginDatabase := some "db",
          authMechanism := some "MONGODB-X509",
          tlsOptions := some [("tls", TlsValue.bool true)],
          clientOptions := some [("w", "1")] } ++
      passwordSegment
        { username := some "u", host := some "h", loginDatabase := some "db",
          authMechanism := some "MONGODB-X509",
          tlsOptions := some [("tls", TlsValue.bool true)],
          clientOptions := some [("w", "1")] } ++
      authoritySegment
        { username := some "u", host := some "h", loginDatabase := some "db",
          authMechanism := some "MONGODB-X509",
          tlsOptions := some [("tls", TlsValue.bool true)],
          clientOptions := some [("w", "1")] } ++
      (AND ++ AUTH_MECHANISM ++ EQUAL_SIGN ++
        encodeURIComponent (jsGet (some "MONGODB-X509"))) ++
      serializeTlsOptions "" [("tls", TlsValue.bool true)] ++
      clientOptionsSegment
        { username := some "u", host := some "h", loginDatabase := some "db",
          authMechanism := some "MONGODB-X509",
          tlsOptions := some [("tls", TlsValue.bool true)],
          clientOptions := some [("w", "1")] } :=
  C4_mechanism_precedes_tls _ _ rfl (by decide) rfl

/-- C5: when neither `loginDatabase` nor `authSource` is supplied the
authority branch is skipped entirely and the host never reaches the URI:
the claim (and the spec's stated edge-case policy) is violated by the
code at this input. -/
theorem C5_host_dropped_without_authority :
    buildUri { username := some "u", host := some "myhost:27017" } =
      "mongodb://u" ∧
    ¬ ("myhost:27017").data <:+: ("mongodb://u").data := by
  constructor
  · rfl
  · decide

lemma eq_not_mem_scheme (o : ConnectionConfig) :
    '=' ∉ (schemeString o).data := by
  unfold schemeString
  split_ifs <;> decide

lemma eq_not_mem_userSegment (o : ConnectionConfig) :
    '=' ∉ (userSegment o).data :=
  eq_char_not_mem_encode _

lemma eq_not_mem_passwordSegment (o : ConnectionConfig) :
    '=' ∉ (passwordSegment o).data := by
  unfold passwordSegment
  split_ifs
  · rw [String.data_append]
    intro hmem
    rcases List.mem_append.mp hmem with h | h
    · exact absurd h (by decide)
    · exact eq_char_not_mem_encode _ h
  · decide

/-- C6 counterexample: with `authMechanism` absent, a `clientOptions`
entry named `authMechanism` still puts the substring `authMechanism=`
into the URI, so the claim fails as stated for arbitrary
`clientOptions`. -/
theorem C6_counterexample_clientOptions_inject :
    buildUri
      { username := some "u", host := some "h", loginDatabase := some "db",
        clientOptions := some [("authMechanism", "PLAIN")] } =
      "mongodb://u@h/db&authMechanism=PLAIN" ∧
    ("authMechanism=").data <:+: ("mongodb://u@h/db&authMechanism=PLAIN").data := by
  constructor
  · rfl
  · decide

/-- C6 amended: with `authMechanism` absent the builder itself never
appends an `authMechanism=` parameter: the substring can only be injected
verbatim by raw-embedded fields.  With `clientOptions` absent and no `=`
character inside host, login database or auth source, no `authMechanism=`
substring occurs, for arbitrary username, password and `tlsOptions`. -/
theorem C6_no_authMechanism_parameter (o : ConnectionConfig)
    (hc : jsTruthy o.connectionUri = false)
    (hm : o.authMechanism = none)
    (hcl : o.clientOptions = none)
    (hhost : '=' ∉ (jsString o.host).data)
    (hld : '=' ∉ (jsGet o.loginDatabase).data)
    (has : '=' ∉ (jsGet o.authSource).data) :
    ¬ ("authMechanism=").data <:+: (buildUri o).data := by
  have hmf : jsTruthy o.authMechanism = false := by rw [hm]; rfl
  have huri : buildUri o =
      schemeString o ++ userSegment o ++ passwordSegment o ++
        authoritySegment o := by
    rw [buildUri_not_truthy hc, buildDerivedUri_parts,
      mechanismSegment_empty hmf, tlsSegment_empty hmf,
      clientOptionsSegment_none hcl]
    simp only [String.append_empty]
  by_cases hldT : jsTruthy o.loginDatabase = true
  · have hauth : authoritySegment o =
        AT ++ jsString o.host ++ SLASH ++ jsGet o.loginDatabase := by
      unfold authoritySegment
      rw [if_pos hldT]
    refine not_infix_of_not_mem (a := '=') (by decide) ?_
    rw [huri, hauth]
    simp only [String.data_append, List.append_assoc, List.mem_append,
      not_or]
    exact ⟨eq_not_mem_scheme o, eq_not_mem_userSegment o,
      eq_not_mem_passwordSegment o, by decide, hhost, by decide, hld⟩
  · by_cases hasT : jsTruthy o.authSource = true
    · have hauth : authoritySegment o =
          AT ++ jsString o.host ++ BEGINNING_STRING ++ AUTH_SOURCE ++
            EQUAL_SIGN ++ jsGet o.authSource := by
        unfold authoritySegment
        rw [if_neg hldT, if_pos hasT]
      intro hinf
      have hdata : (buildUri o).data =
          (((schemeString o).data ++ ((userSegment o).data ++
            ((passwordSegment o).data ++ (['@'] ++
              ((jsString o.host).data ++ ['/', '?'])))))
            ++ ("authSource").data) ++
          '=' :: (jsGet o.authSource).data := by
        rw [huri, hauth]
        simp only [String.data_append, List.append_assoc]
        rfl
      rw [hdata,
        show ("authMechanism=").data = "authMechanism".data ++ ['='] from rfl]
        at hinf
      have hA : '=' ∉ (((schemeString o).data ++ ((userSegment o).data ++
          ((passwordSegment o).data ++ (['@'] ++
            ((jsString o.host).data ++ ['/', '?'])))))
            ++ ("authSource").data) := by
        simp only [List.mem_append, not_or]
        exact ⟨⟨eq_not_mem_scheme o, eq_not_mem_userSegment o,
          eq_not_mem_passwordSegment o, by decide, hhost, by decide⟩,
          by decide⟩
      have hsuf := infix_concat_single hA has (by decide) hinf
      have hlast := suffix_getLast hsuf (by decide)
      rw [List.getLast?_append] at hlast
      rw [show ("authSource").data.getLast? = some 'e' from by decide,
        show ("authMechanism").data.getLast? = some 'm' from by decide] at hlast
      simp only [Option.or] at hlast
      exact absurd hlast (by decide)
    · have hauth : authoritySegment o = "" := by
        unfold authoritySegment
        rw [if_neg hldT, if_neg hasT]
      refine not_infix_of_not_mem (a := '=') (by decide) ?_
      rw [huri, hauth]
      simp only [String.append_empty, String.data_append, List.append_assoc,
        List.mem_append, not_or]
      exact ⟨eq_not_mem_scheme o, eq_not_mem_userSegment o,
        eq_not_mem_passwordSegment o⟩

theorem C6_no_authMechanism_parameter_witness :
    ¬ ("authMechanism=").data <:+:
      (buildUri
        { username := some "u", password := some "p@w", host := some "h",
          authSource := some "src1",
          tlsOptions := some [("tls", TlsValue.bool true)] }).data :=
  C6_no_authMechanism_parameter _ rfl rfl rfl (by decide) (by decide)
    (by decide)

/-- C7: a truthy password is embedded after a colon as
`encodeURIComponent` output, and percent-decoding that output recovers
the original password exactly, whatever reserved characters it
contains. -/
theorem C7_password_roundtrip (o : ConnectionConfig) (p : String)
    (hc : jsTruthy o.connectionUri = false)
    (hp : o.password = some p) (hne : p ≠ "") :
    buildUri o =
      schemeString o ++ userSegment o ++
        (COLON ++ encodeURIComponent p) ++
        (authoritySegment o ++ mechanismSegment o ++ tlsSegment o ++
          clientOptionsSegment o) ∧
    percentDecode (encodeURIComponent p) = some p := by
  constructor
  · rw [buildUri_not_truthy hc, buildDerivedUri_parts]
    have hpass : passwordSegment o = COLON ++ encodeURIComponent p := by
      unfold passwordSegment
      rw [hp, if_pos (jsTruthy_some_true hne)]
      rfl
    rw [hpass]
    simp only [String.append_assoc]
  · exact percentDecode_encodeURIComponent p

theorem C7_password_roundtrip_witness :
    buildUri
      { username := some "bob", password := some "p@ss/word",
        host := some "h:27017", loginDatabase := some "db1" } =
      schemeString
        { username := some "bob", password := some "p@ss/word",
          host := some "h:27017", loginDatabase := some "db1" } ++
      userSegment
        { username := some "bob", password := some "p@ss/word",
          host := some "h:27017", loginDatabase := some "db1" } ++
      (COLON ++ encodeURIComponent "p@ss/word") ++
      (authoritySegment
        { username := some "bob", password := some "p@ss/word",
          host := some "h:27017", loginDatabase := some "db1" } ++
       mechanismSegment
        { username := some "bob", password := some "p@ss/word",
          host := some "h:27017", loginDatabase := some "db1" } ++
       tlsSegment
        { username := some "bob", password := some "p@ss/word",
          host := some "h:27017", loginDatabase := some "db1" } ++
       clientOptionsSegment
        { username := some "bob", password := some "p@ss/word",
          host := some "h:27017", loginDatabase := some "db1" }) ∧
    percentDecode (encodeURIComponent "p@ss/word") = some "p@ss/word" :=
  C7_password_roundtrip _ "p@ss/word" rfl rfl (by decide)

/-- C1 counterexample: with no explicit URI, no username and no host, the
constructor does not fail at all: it produces a descriptor whose URI is
the scheme followed by the literal text `undefined`. -/
theorem C1_counterexample_descriptor_produced :
    buildUri {} = "mongodb://undefined" ∧
    mkMongoManager {} =
      { connectionUri := "mongodb://undefined",
        client := { uri := "mongodb://undefined" } } :=
  ⟨rfl, rfl⟩
